import Mathlib

set_option maxHeartbeats 1000000

/-!
Shallow embedding of `src/server/app.py` (Folio-ResearchUsingRAG), a small
retrieval-augmented-generation backend.  External capabilities (base64
decoding, PDF parsing, the vector index query engine, the S3 reader, index
(de)serialization, the LLM completion call) are opaque parameters collected
in an `Env` record; the control flow of `get_s3_index`, `build_pdf_index`,
`retrieve`, `generate_answer` and the `/response` handler is translated
directly from the source.
-/

namespace Folio

/-- Raw bytes, as produced by `base64.b64decode`. -/
abbrev Bytes := List Nat

/-- A llama-index `Document` (text plus source metadata). -/
structure Document where
  text : String
  source : String
  deriving DecidableEq

/-- A `VectorStoreIndex`, abstracted to the documents it was built over. -/
structure Index where
  docs : List Document
  deriving DecidableEq

/-- `VectorStoreIndex.from_documents`. -/
def Index.from_documents (ds : List Document) : Index := ⟨ds⟩

/-- One entry of the request's `pdf_files` list: `{"name": ..., "data": <base64>}`. -/
structure PdfFile where
  name : String
  data : String
  deriving DecidableEq

/-- The errors the embedded code can raise (a base64 decode failure in
`build_pdf_index`; everything else in the modelled paths is total). -/
inductive PyError where
  | decodeError
  deriving DecidableEq

/-- Opaque external capabilities of `app.py`:
`b64decode` models `base64.b64decode` (`none` = the call raises);
`parseFile` models the PDF parsing done by `SimpleDirectoryReader` on one
file; `rmtreeOk` tells whether `shutil.rmtree` on the temp dir succeeds;
`query` models `index.as_query_engine(similarity_top_k=k).query(q)` rendered
with `str`; `loadIndexFromStorage` models
`load_index_from_storage(StorageContext...)`; `s3Documents` is what
`S3Reader(...).load_data()` returns; `persistFiles` models which files
`index.storage_context.persist` writes to the storage dir; `llmComplete`
models `str(llm.complete(prompt))`. -/
structure Env where
  b64decode : String → Option Bytes
  parseFile : String → Bytes → List Document
  rmtreeOk : Bool
  query : Index → Nat → String → String
  loadIndexFromStorage : List String → Index
  s3Documents : List Document
  persistFiles : Index → List String
  llmComplete : String → String

/-- Writing one file into the temp directory (`open(file_path, 'wb')`):
an existing file of the same name is overwritten, otherwise the file is
appended. -/
def writeFile (dir : List (String × Bytes)) (name : String) (content : Bytes) :
    List (String × Bytes) :=
  if dir.any (fun f => f.1 = name) then
    dir.map (fun f => if f.1 = name then (name, content) else f)
  else dir ++ [(name, content)]

/-- The `for pdf in pdf_files:` loop of `build_pdf_index`: decode each
payload with `base64.b64decode` and write it into the temp directory; a
decode failure raises at once (later files are not written). -/
def writeUploads (dec : String → Option Bytes) : List PdfFile → List (String × Bytes) →
    Except PyError (List (String × Bytes))
  | [], dir => .ok dir
  | pdf :: rest, dir =>
    match dec pdf.data with
    | none => .error .decodeError
    | some bs => writeUploads dec rest (writeFile dir pdf.name bs)

/-- The `required_exts=[".pdf"]` filename filter: the name ends in `.pdf`
(stated over the character list so it evaluates structurally). -/
def endsWithPdf (name : String) : Bool :=
  decide (name.data.reverse.take 4 = (".pdf").data.reverse)

/-- `SimpleDirectoryReader(tmp_dir, required_exts=[".pdf"]).load_data()`:
keep only `.pdf` files and parse each into documents. -/
def load_data (parse : String → Bytes → List Document) (dir : List (String × Bytes)) :
    List Document :=
  (dir.filter (fun f => endsWithPdf f.1)).foldr
    (fun f acc => parse f.1 f.2 ++ acc) []

/-- The `try:` body of `build_pdf_index`: write the decoded uploads into the
fresh temp directory, load the documents, build the index. -/
def buildBody (env : Env) (pdf_files : List PdfFile) : Except PyError Index :=
  match writeUploads env.b64decode pdf_files [] with
  | .error e => .error e
  | .ok dir => .ok (Index.from_documents (load_data env.parseFile dir))

/-- Outcome of one `build_pdf_index` call: the returned index or the raised
exception, and whether the temp directory still exists afterwards. -/
structure BuildOutcome where
  result : Except PyError Index
  tmpDirExists : Bool

/-- `build_pdf_index`: run the body under `try ... finally
shutil.rmtree(tmp_dir, ignore_errors=True)`: on the return path and on the
exception path alike, removal is attempted; `ignore_errors=True` means a
removal failure is swallowed (the directory then survives, but no new
exception is raised and the body's outcome is unchanged). -/
def build_pdf_index (env : Env) (pdf_files : List PdfFile) : BuildOutcome :=
  match buildBody env pdf_files with
  | .ok idx => { result := .ok idx, tmpDirExists := !env.rmtreeOk }
  | .error e => { result := .error e, tmpDirExists := !env.rmtreeOk }

/-- Process state the persistent index depends on: the contents of
`STORAGE_DIR` and a counter of S3 fetches (`reader.load_data()` calls). -/
structure S3State where
  storageDir : List String
  s3Fetches : Nat
  deriving DecidableEq

/-- `get_s3_index`: `if any(STORAGE_DIR.iterdir())` load the index from
local storage; else pull the documents from S3 (incrementing the fetch
counter), build a fresh index, persist it to the storage dir, return it. -/
def get_s3_index (env : Env) (st : S3State) : Index × S3State :=
  if st.storageDir ≠ [] then
    (env.loadIndexFromStorage st.storageDir, st)
  else
    let index := Index.from_documents env.s3Documents
    (index, { storageDir := env.persistFiles index, s3Fetches := st.s3Fetches + 1 })

/-- The langgraph `GraphState` TypedDict. -/
structure GraphState where
  question : String
  context : String
  response : String
  pdf_files : List PdfFile
  use_s3 : Bool
  deriving DecidableEq

/-- A partial state update as returned by a langgraph node: a dict holding
a subset of the keys (`none` = key absent from the returned dict). -/
structure StateUpdate where
  question : Option String := none
  context : Option String := none
  response : Option String := none
  pdf_files : Option (List PdfFile) := none
  use_s3 : Option Bool := none
  deriving DecidableEq

/-- The orchestrator's merge of a node's partial update into the state. -/
def applyUpdate (s : GraphState) (u : StateUpdate) : GraphState :=
  { question := u.question.getD s.question
    context := u.context.getD s.context
    response := u.response.getD s.response
    pdf_files := u.pdf_files.getD s.pdf_files
    use_s3 := u.use_s3.getD s.use_s3 }

/-- Python's `"\n\n".join(...)` (here with a general separator). -/
def joinStrings (sep : String) : List String → String
  | [] => ""
  | [s] => s
  | s :: rest => s ++ sep ++ joinStrings sep rest

/-- The first half of `retrieve`: `if state.get("pdf_files"):` build the
ephemeral index, query it, and append the `[Uploaded PDFs]` fragment; the
fragment list stays empty when no files were uploaded.  A decode exception
from `build_pdf_index` propagates. -/
def pdfContexts (env : Env) (state : GraphState) : Except PyError (List String) :=
  if state.pdf_files ≠ [] then
    match (build_pdf_index env state.pdf_files).result with
    | .error e => .error e
    | .ok pdf_index =>
      .ok ["[Uploaded PDFs]\n" ++ env.query pdf_index 3 state.question]
  else .ok []

/-- The `retrieve` node: collect the uploaded-PDF fragment, then
`if state.get("use_s3", True):` the `[S3 Documents]` fragment, and return
`{"context": "\n\n".join(contexts) if contexts else "No context available."}`
together with the S3 process state after the call. -/
def retrieve (env : Env) (s3 : S3State) (state : GraphState) :
    Except PyError (StateUpdate × S3State) :=
  match pdfContexts env state with
  | .error e => .error e
  | .ok cs0 =>
    let cs := if state.use_s3 then
        cs0 ++ ["[S3 Documents]\n" ++ env.query (get_s3_index env s3).fst 3 state.question]
      else cs0
    let s3out := if state.use_s3 then (get_s3_index env s3).snd else s3
    .ok ({ context := some (if cs ≠ [] then joinStrings "\n\n" cs
                            else "No context available.") }, s3out)

/-- The f-string prompt template of `generate_answer`, with the context and
the question substituted in. -/
def mkPrompt (context question : String) : String :=
  "\n    You are an expert research assistant. Use the provided context AND your general knowledge.\n    Context: "
    ++ context ++ "\n    Question: " ++ question ++ "\n    Answer:"

/-- The `generate_answer` node: build the prompt, call the LLM, and return
`{"response": str(response)}`. -/
def generate_answer (env : Env) (state : GraphState) : StateUpdate :=
  { response := some (env.llmComplete (mkPrompt state.context state.question)) }

/-- `rag_graph.invoke(...)`: the compiled linear workflow
`retrieve → generate → END`; each node's partial update is merged into the
state before the next node runs; exceptions propagate. -/
def rag_graph_invoke (env : Env) (s3 : S3State) (init : GraphState) :
    Except PyError (GraphState × S3State) :=
  match retrieve env s3 init with
  | .error e => .error e
  | .ok (u1, s3out) =>
    let st1 := applyUpdate init u1
    let st2 := applyUpdate st1 (generate_answer env st1)
    .ok (st2, s3out)

/-- The parsed JSON body of a `POST /response` request (`none` = key
absent). -/
structure ReqBody where
  question : Option String := none
  pdf_files : Option (List PdfFile) := none
  use_s3 : Option Bool := none
  deriving DecidableEq

/-- The HTTP response shapes the `/response` handler can produce. -/
inductive HttpResponse where
  | clientError (code : Nat) (error : String)
  | success (code : Nat) (response : String)
  | serverError (code : Nat)
  deriving DecidableEq

/-- The initial `GraphState` the handler passes to `rag_graph.invoke`:
`pdf_files = data.get("pdf_files", [])`,
`use_s3 = data.get("use_s3", not bool(pdf_files))`, empty context and
response. -/
def initState (q : String) (data : ReqBody) : GraphState :=
  let pdf_files := data.pdf_files.getD []
  { question := q
    context := ""
    response := ""
    pdf_files := pdf_files
    use_s3 := data.use_s3.getD pdf_files.isEmpty }

/-- The `POST /response` handler `get_response`: reject a missing or empty
question with 400 before the pipeline runs; otherwise invoke the workflow
and render the final response.  The middle component counts pipeline
invocations; an uncaught pipeline exception surfaces as a 500. -/
def get_response (env : Env) (s3 : S3State) (data : ReqBody) :
    HttpResponse × Nat × S3State :=
  match data.question with
  | none => (.clientError 400 "No question provided", 0, s3)
  | some q =>
    if q = "" then (.clientError 400 "No question provided", 0, s3)
    else
      match rag_graph_invoke env s3 (initState q data) with
      | .error _ => (.serverError 500, 1, s3)
      | .ok (final, s3out) => (.success 200 final.response, 1, s3out)

/-- A concrete environment used by the witnesses: decoding succeeds, each
file parses to one document, queries return a visible snippet. -/
def envA : Env :=
  { b64decode := fun s => some [s.length]
    parseFile := fun n _ => [⟨"text:" ++ n, n⟩]
    rmtreeOk := true
    query := fun _ _ q => "snip:" ++ q
    loadIndexFromStorage := fun fs => ⟨[⟨"stored", joinStrings "," fs⟩]⟩
    s3Documents := [⟨"s3doc", "s3"⟩]
    persistFiles := fun _ => ["docstore.json"]
    llmComplete := fun p => "LLM:" ++ p }

/-- A concrete environment whose query engine returns the empty string. -/
def envEmptyQ : Env := { envA with query := fun _ _ _ => "" }

/-- A concrete environment whose base64 decoder always raises. -/
def envBad64 : Env := { envA with b64decode := fun _ => none }

/-- A concrete uploaded file. -/
def fileA : PdfFile := ⟨"a.pdf", "QUJD"⟩

/-- A concrete S3 process state with a non-empty (pre-seeded) snapshot
directory. -/
def s3Seeded : S3State := ⟨["docstore.json"], 0⟩

theorem ne_empty_of_length_pos (a : String) (h : 0 < a.length) : a ≠ "" := by
  intro hc
  rw [hc] at h
  simp at h

theorem append_ne_empty_left (a b : String) (h : 0 < a.length) : a ++ b ≠ "" := by
  apply ne_empty_of_length_pos
  rw [String.length_append]
  omega

theorem upload_fragment_ne_empty (a : String) : "[Uploaded PDFs]\n" ++ a ≠ "" :=
  append_ne_empty_left _ _ (by decide)

theorem s3_fragment_ne_empty (b : String) : "[S3 Documents]\n" ++ b ≠ "" :=
  append_ne_empty_left _ _ (by decide)

theorem joinStrings_pair (sep x y : String) : joinStrings sep [x, y] = x ++ sep ++ y := rfl

theorem pdfContexts_nil (env : Env) (st : GraphState) (hp : st.pdf_files = []) :
    pdfContexts env st = .ok [] := by
  unfold pdfContexts
  rw [if_neg (by simp [hp])]

theorem pdfContexts_cons (env : Env) (st : GraphState) (idx : Index)
    (hpdf : st.pdf_files ≠ [])
    (hbuild : (build_pdf_index env st.pdf_files).result = .ok idx) :
    pdfContexts env st = .ok ["[Uploaded PDFs]\n" ++ env.query idx 3 st.question] := by
  unfold pdfContexts
  rw [if_pos hpdf, hbuild]

theorem pdfContexts_shape (env : Env) (st : GraphState) (cs : List String)
    (h : pdfContexts env st = .ok cs) :
    cs = [] ∨ ∃ a, cs = ["[Uploaded PDFs]\n" ++ a] := by
  unfold pdfContexts at h
  by_cases hp : st.pdf_files ≠ []
  · rw [if_pos hp] at h
    cases hb : (build_pdf_index env st.pdf_files).result with
    | error e =>
      rw [hb] at h
      exact absurd h (by simp)
    | ok idx =>
      rw [hb] at h
      right
      refine ⟨env.query idx 3 st.question, ?_⟩
      injection h with h
      exact h.symm
  · rw [if_neg hp] at h
    left
    injection h with h
    exact h.symm

theorem retrieve_s3_true (env : Env) (s3 : S3State) (st : GraphState) (cs0 : List String)
    (hp : pdfContexts env st = .ok cs0) (hs : st.use_s3 = true) :
    retrieve env s3 st = .ok ({ context := some (joinStrings "\n\n"
        (cs0 ++ ["[S3 Documents]\n" ++ env.query (get_s3_index env s3).fst 3 st.question])) },
      (get_s3_index env s3).snd) := by
  have hne : cs0 ++ ["[S3 Documents]\n" ++ env.query (get_s3_index env s3).fst 3 st.question]
      ≠ [] := by
    cases cs0 <;> simp
  unfold retrieve
  rw [hp]
  simp only [hs, if_true, ne_eq, hne, not_false_iff, if_pos]

theorem retrieve_s3_false (env : Env) (s3 : S3State) (st : GraphState) (cs0 : List String)
    (hp : pdfContexts env st = .ok cs0) (hs : st.use_s3 = false) :
    retrieve env s3 st = .ok ({ context := some (if cs0 ≠ [] then joinStrings "\n\n" cs0
        else "No context available.") }, s3) := by
  unfold retrieve
  rw [hp]
  simp only [hs, if_false, Bool.false_eq_true, ite_false]

theorem build_result_eq (env : Env) (files : List PdfFile) :
    (build_pdf_index env files).result = buildBody env files := by
  unfold build_pdf_index
  cases buildBody env files <;> rfl

theorem build_tmpDir_eq (env : Env) (files : List PdfFile) :
    (build_pdf_index env files).tmpDirExists = !env.rmtreeOk := by
  unfold build_pdf_index
  cases buildBody env files <;> rfl

/-- Claim C1: for every request state in which uploaded documents are present
(and the ephemeral index build succeeds) and the persistent-corpus flag is
true, the context produced by `retrieve` places the fragment labeled
"Uploaded PDFs" before the fragment labeled "S3 Documents", joined with a
blank line between them. -/
theorem c1_upload_fragment_precedes_s3 (env : Env) (s3 : S3State) (st : GraphState)
    (idx : Index) (hpdf : st.pdf_files ≠ []) (hs3 : st.use_s3 = true)
    (hbuild : (build_pdf_index env st.pdf_files).result = .ok idx) :
    ∃ a b s3out, retrieve env s3 st =
      .ok ({ context := some ("[Uploaded PDFs]\n" ++ a ++ "\n\n"
                ++ ("[S3 Documents]\n" ++ b)) }, s3out) := by
  have hp := pdfContexts_cons env st idx hpdf hbuild
  refine ⟨env.query idx 3 st.question, env.query (get_s3_index env s3).fst 3 st.question,
    (get_s3_index env s3).snd, ?_⟩
  rw [retrieve_s3_true env s3 st _ hp hs3, List.singleton_append, joinStrings_pair]

/-- Witness for C1 at a concrete request. -/
theorem c1_witness :
    ∃ a b s3out, retrieve envA s3Seeded ⟨"q", "", "", [fileA], true⟩ =
      .ok ({ context := some ("[Uploaded PDFs]\n" ++ a ++ "\n\n"
                ++ ("[S3 Documents]\n" ++ b)) }, s3out) :=
  c1_upload_fragment_precedes_s3 envA s3Seeded ⟨"q", "", "", [fileA], true⟩
    ⟨[⟨"text:a.pdf", "a.pdf"⟩]⟩ (List.cons_ne_nil _ _) rfl rfl

/-- Claim C2: whenever `retrieve` returns, the produced context is non-empty;
when uploads are absent and the persistent-corpus flag is false it equals
exactly the sentinel "No context available.", and that is the context the
generation stage receives after the merge. -/
theorem c2_context_nonempty_sentinel (env : Env) (s3 : S3State) (st : GraphState)
    (u : StateUpdate) (s3out : S3State) (h : retrieve env s3 st = .ok (u, s3out)) :
    ∃ c, u.context = some c ∧ c ≠ "" ∧ (applyUpdate st u).context = c ∧
      (st.pdf_files = [] ∧ st.use_s3 = false → c = "No context available.") := by
  cases hpc : pdfContexts env st with
  | error e =>
    unfold retrieve at h
    rw [hpc] at h
    exact absurd h (by simp)
  | ok cs0 =>
    cases hs : st.use_s3 with
    | true =>
      rw [retrieve_s3_true env s3 st cs0 hpc hs] at h
      injection h with h
      injection h with h1 h2
      rw [← h1]
      refine ⟨_, rfl, ?_, rfl, ?_⟩
      · rcases pdfContexts_shape env st cs0 hpc with h0 | ⟨a, h0⟩
        · subst h0
          exact s3_fragment_ne_empty _
        · subst h0
          apply append_ne_empty_left
          rw [String.length_append, String.length_append]
          have : 0 < ("[Uploaded PDFs]\n" : String).length := by decide
          omega
      · rintro ⟨-, hs3⟩
        exact absurd hs3 (by simp)
    | false =>
      rw [retrieve_s3_false env s3 st cs0 hpc hs] at h
      injection h with h
      injection h with h1 h2
      rw [← h1]
      refine ⟨_, rfl, ?_, rfl, ?_⟩
      · rcases pdfContexts_shape env st cs0 hpc with h0 | ⟨a, h0⟩
        · subst h0
          decide
        · subst h0
          exact upload_fragment_ne_empty a
      · rintro ⟨hpf, -⟩
        rw [pdfContexts_nil env st hpf] at hpc
        injection hpc with hc
        subst hc
        rfl

/-- Witness for C2 at a concrete request with no uploads and the flag
false. -/
theorem c2_witness :
    ∃ c, ({ context := some "No context available." } : StateUpdate).context = some c ∧
      c ≠ "" ∧
      (applyUpdate ⟨"q", "", "", [], false⟩
        { context := some "No context available." }).context = c ∧
      (([] : List PdfFile) = [] ∧ false = false → c = "No context available.") :=
  c2_context_nonempty_sentinel envA s3Seeded ⟨"q", "", "", [], false⟩
    { context := some "No context available." } s3Seeded rfl

/-- Claim C3 counterexample: with uploaded documents present, the query result
of the ephemeral index is the empty string and yet `retrieve` still appends
the "[Uploaded PDFs]" fragment (the context is the bare label, not the
sentinel), contradicting "an empty query result contributes no fragment". -/
theorem c3_counterexample :
    (build_pdf_index envEmptyQ [fileA]).result =
        .ok (Index.from_documents [⟨"text:a.pdf", "a.pdf"⟩])
    ∧ envEmptyQ.query (Index.from_documents [⟨"text:a.pdf", "a.pdf"⟩]) 3 "q" = ""
    ∧ retrieve envEmptyQ s3Seeded ⟨"q", "", "", [fileA], false⟩ =
        .ok ({ context := some "[Uploaded PDFs]\n" }, s3Seeded)
    ∧ "[Uploaded PDFs]\n" ≠ "No context available." :=
  ⟨rfl, rfl, rfl, by decide⟩

/-- Claim C3 (amended): with uploaded documents present (and the ephemeral
index build succeeding), `retrieve` appends the "Uploaded PDFs" fragment
unconditionally — the composed context starts with the label followed by the
query result, whether or not that result is empty. -/
theorem c3_amended_fragment_unconditional (env : Env) (s3 : S3State) (st : GraphState)
    (idx : Index) (hpdf : st.pdf_files ≠ [])
    (hbuild : (build_pdf_index env st.pdf_files).result = .ok idx) :
    ∃ rest s3out, retrieve env s3 st =
      .ok ({ context := some ("[Uploaded PDFs]\n"
                ++ env.query idx 3 st.question ++ rest) }, s3out) := by
  have hp := pdfContexts_cons env st idx hpdf hbuild
  cases hs : st.use_s3 with
  | true =>
    refine ⟨"\n\n" ++ ("[S3 Documents]\n" ++ env.query (get_s3_index env s3).fst 3 st.question),
      (get_s3_index env s3).snd, ?_⟩
    rw [retrieve_s3_true env s3 st _ hp hs, List.singleton_append, joinStrings_pair,
      String.append_assoc]
  | false =>
    refine ⟨"", s3, ?_⟩
    rw [retrieve_s3_false env s3 st _ hp hs, String.append_empty]
    rfl

/-- Witness for the amended C3 at a concrete request whose query result is
empty. -/
theorem c3_witness :
    ∃ rest s3out, retrieve envEmptyQ s3Seeded ⟨"q", "", "", [fileA], false⟩ =
      .ok ({ context := some ("[Uploaded PDFs]\n"
                ++ envEmptyQ.query ⟨[⟨"text:a.pdf", "a.pdf"⟩]⟩ 3 "q" ++ rest) }, s3out) :=
  c3_amended_fragment_unconditional envEmptyQ s3Seeded ⟨"q", "", "", [fileA], false⟩
    ⟨[⟨"text:a.pdf", "a.pdf"⟩]⟩ (List.cons_ne_nil _ _) rfl

/-- Claim C4: `get_s3_index` with a non-empty snapshot directory deserializes
the index from it and performs no S3 fetch (the state, including the fetch
counter, is unchanged); with an empty snapshot directory it fetches the
corpus from S3 (one fetch), builds the index from those documents, and
persists it to the snapshot directory before returning. -/
theorem c4_snapshot_policy (env : Env) (st : S3State) :
    (st.storageDir ≠ [] →
      get_s3_index env st = (env.loadIndexFromStorage st.storageDir, st))
    ∧ (st.storageDir = [] →
      get_s3_index env st =
        (Index.from_documents env.s3Documents,
         { storageDir := env.persistFiles (Index.from_documents env.s3Documents),
           s3Fetches := st.s3Fetches + 1 })) := by
  constructor
  · intro h
    unfold get_s3_index
    rw [if_pos h]
  · intro h
    unfold get_s3_index
    rw [if_neg (by simp [h])]

/-- Witness for C4: a pre-seeded snapshot directory is loaded without a
fetch; an empty one triggers exactly one fetch and a persist. -/
theorem c4_witness :
    get_s3_index envA s3Seeded = (envA.loadIndexFromStorage ["docstore.json"], s3Seeded)
    ∧ get_s3_index envA ⟨[], 5⟩ =
        (Index.from_documents envA.s3Documents,
         { storageDir := envA.persistFiles (Index.from_documents envA.s3Documents),
           s3Fetches := 6 }) :=
  ⟨(c4_snapshot_policy envA s3Seeded).1 (List.cons_ne_nil _ _),
   (c4_snapshot_policy envA ⟨[], 5⟩).2 rfl⟩

/-- Claim C5: `build_pdf_index` removes the temporary directory on the
success path and on every failure path exactly when the removal itself
succeeds, and a removal failure is swallowed: the function's result is
unchanged whatever `shutil.rmtree` does. -/
theorem c5_tmpdir_cleanup (env : Env) (pdf_files : List PdfFile) :
    ((build_pdf_index env pdf_files).tmpDirExists = false ↔ env.rmtreeOk = true)
    ∧ ∀ b : Bool, (build_pdf_index { env with rmtreeOk := b } pdf_files).result =
        (build_pdf_index env pdf_files).result := by
  constructor
  · rw [build_tmpDir_eq]
    cases h : env.rmtreeOk <;> simp
  · intro b
    rw [build_result_eq, build_result_eq]
    rfl

/-- Claim C6: a request with a missing or empty question is answered with
400 and the error body, and the pipeline is never invoked (invocation count
zero, S3 state untouched). -/
theorem c6_reject_empty_question (env : Env) (s3 : S3State) (data : ReqBody)
    (h : data.question = none ∨ data.question = some "") :
    get_response env s3 data = (.clientError 400 "No question provided", 0, s3) := by
  rcases h with h | h
  · unfold get_response
    rw [h]
  · unfold get_response
    rw [h]
    rfl

/-- Witness for C6 with an empty question string. -/
theorem c6_witness :
    get_response envA s3Seeded { question := some "" } =
      (.clientError 400 "No question provided", 0, s3Seeded) :=
  c6_reject_empty_question envA s3Seeded { question := some "" } (Or.inr rfl)

/-- Claim C7: with `use_s3` omitted the flag defaults to true exactly when
`pdf_files` is empty or absent and to false when it is non-empty; an
explicitly supplied `use_s3` is used unchanged. -/
theorem c7_use_s3_default (q : String) (data : ReqBody) :
    (data.use_s3 = none → (data.pdf_files = none ∨ data.pdf_files = some []) →
        (initState q data).use_s3 = true)
    ∧ (data.use_s3 = none → ∀ f fs, data.pdf_files = some (f :: fs) →
        (initState q data).use_s3 = false)
    ∧ ∀ b : Bool, data.use_s3 = some b → (initState q data).use_s3 = b := by
  refine ⟨?_, ?_, ?_⟩
  · intro hu hp
    rcases hp with hp | hp <;> simp [initState, hu, hp]
  · intro hu f fs hp
    simp [initState, hu, hp]
  · intro b hu
    simp [initState, hu]

/-- Witness for C7 at three concrete request bodies. -/
theorem c7_witness :
    (initState "q" ⟨some "q", none, none⟩).use_s3 = true
    ∧ (initState "q" ⟨some "q", some [fileA], none⟩).use_s3 = false
    ∧ (initState "q" ⟨some "q", none, some false⟩).use_s3 = false :=
  ⟨(c7_use_s3_default "q" ⟨some "q", none, none⟩).1 rfl (Or.inl rfl),
   (c7_use_s3_default "q" ⟨some "q", some [fileA], none⟩).2.1 rfl fileA [] rfl,
   (c7_use_s3_default "q" ⟨some "q", none, some false⟩).2.2 false rfl⟩

/-- Claim C8 counterexample: one uploaded file with undecodable base64 and
`use_s3 = false` does not yield the sentinel context with generation
proceeding — the decode error propagates, `retrieve` raises, and the
request fails with a 500 instead of a success response. -/
theorem c8_counterexample :
    retrieve envBad64 s3Seeded ⟨"Summarize this", "", "", [⟨"f.pdf", "%%%"⟩], false⟩ =
        .error .decodeError
    ∧ get_response envBad64 s3Seeded
        { question := some "Summarize this", pdf_files := some [⟨"f.pdf", "%%%"⟩],
          use_s3 := some false } =
        (.serverError 500, 1, s3Seeded) :=
  ⟨rfl, rfl⟩

/-- Claim C8 (amended): for a request state with exactly one uploaded file
whose data is undecodable base64 and `use_s3 = false`, the decode error
propagates out of document extraction: `retrieve` (and hence the whole
pipeline) raises instead of producing a context, generation never runs, and
the temporary directory is still removed exactly when the removal itself
succeeds. -/
theorem c8_amended_decode_error_propagates (env : Env) (s3 : S3State) (st : GraphState)
    (f : PdfFile) (hf : st.pdf_files = [f]) (hd : env.b64decode f.data = none)
    (_hs : st.use_s3 = false) :
    retrieve env s3 st = .error .decodeError
    ∧ rag_graph_invoke env s3 st = .error .decodeError
    ∧ (build_pdf_index env st.pdf_files).tmpDirExists = !env.rmtreeOk := by
  have hb : buildBody env st.pdf_files = .error .decodeError := by
    rw [hf]
    unfold buildBody writeUploads
    rw [hd]
  have hpc : pdfContexts env st = .error .decodeError := by
    unfold pdfContexts
    rw [if_pos (by rw [hf]; exact List.cons_ne_nil f []), build_result_eq, hb]
  have hr : retrieve env s3 st = .error .decodeError := by
    unfold retrieve
    rw [hpc]
  refine ⟨hr, ?_, build_tmpDir_eq env st.pdf_files⟩
  unfold rag_graph_invoke
  rw [hr]

/-- Witness for the amended C8 at a concrete undecodable upload. -/
theorem c8_witness :
    retrieve envBad64 s3Seeded ⟨"Summarize this", "", "", [⟨"f.pdf", "%%%"⟩], false⟩ =
        .error .decodeError
    ∧ rag_graph_invoke envBad64 s3Seeded
        ⟨"Summarize this", "", "", [⟨"f.pdf", "%%%"⟩], false⟩ = .error .decodeError
    ∧ (build_pdf_index envBad64 [⟨"f.pdf", "%%%"⟩]).tmpDirExists = !envBad64.rmtreeOk :=
  c8_amended_decode_error_propagates envBad64 s3Seeded
    ⟨"Summarize this", "", "", [⟨"f.pdf", "%%%"⟩], false⟩ ⟨"f.pdf", "%%%"⟩ rfl rfl rfl

/-- Claim C9: the prompt sent to the language model is the fixed instruction
template with the accumulated context and the original question substituted
in verbatim (each appears as a contiguous substring), and the model's
completion on exactly that prompt is stored in the returned `response`
field. -/
theorem c9_prompt_contains_context_question (env : Env) (st : GraphState) :
    (∃ pre mid post, mkPrompt st.context st.question =
        pre ++ st.context ++ mid ++ st.question ++ post)
    ∧ generate_answer env st =
        { response := some (env.llmComplete (mkPrompt st.context st.question)) } :=
  ⟨⟨_, _, _, rfl⟩, rfl⟩

/-- Claim C10: the retrieval node's update carries only the context field and
the generation node's update only the response field, so question,
pdf_files and use_s3 are unchanged across the whole pipeline. -/
theorem c10_frame (env : Env) (s3 : S3State) (st : GraphState) :
    (∀ u s3out, retrieve env s3 st = .ok (u, s3out) →
        u.question = none ∧ u.response = none ∧ u.pdf_files = none ∧ u.use_s3 = none)
    ∧ ((generate_answer env st).question = none ∧ (generate_answer env st).context = none
        ∧ (generate_answer env st).pdf_files = none ∧ (generate_answer env st).use_s3 = none)
    ∧ (∀ fin s3out, rag_graph_invoke env s3 st = .ok (fin, s3out) →
        fin.question = st.question ∧ fin.pdf_files = st.pdf_files
          ∧ fin.use_s3 = st.use_s3) := by
  have part1 : ∀ u s3out, retrieve env s3 st = .ok (u, s3out) →
      u.question = none ∧ u.response = none ∧ u.pdf_files = none ∧ u.use_s3 = none := by
    intro u s3out h
    cases hpc : pdfContexts env st with
    | error e =>
      unfold retrieve at h
      rw [hpc] at h
      exact absurd h (by simp)
    | ok cs0 =>
      cases hs : st.use_s3 with
      | true =>
        rw [retrieve_s3_true env s3 st cs0 hpc hs] at h
        injection h with h
        injection h with h1 h2
        rw [← h1]
        exact ⟨rfl, rfl, rfl, rfl⟩
      | false =>
        rw [retrieve_s3_false env s3 st cs0 hpc hs] at h
        injection h with h
        injection h with h1 h2
        rw [← h1]
        exact ⟨rfl, rfl, rfl, rfl⟩
  refine ⟨part1, ⟨rfl, rfl, rfl, rfl⟩, ?_⟩
  intro fin s3out h
  unfold rag_graph_invoke at h
  cases hr : retrieve env s3 st with
  | error e =>
    rw [hr] at h
    exact absurd h (by simp)
  | ok p =>
    obtain ⟨u, s3x⟩ := p
    rw [hr] at h
    injection h with h
    injection h with h1 h2
    obtain ⟨hq, hresp, hpf, hus⟩ := part1 u s3x hr
    rw [← h1]
    simp [applyUpdate, generate_answer, hq, hpf, hus]

/-- Witness for C10: both node updates and the end-to-end frame condition at
a concrete request. -/
theorem c10_witness :
    (∃ u s3out, retrieve envA s3Seeded ⟨"q", "", "", [], false⟩ = .ok (u, s3out)
        ∧ u.question = none ∧ u.response = none ∧ u.pdf_files = none ∧ u.use_s3 = none)
    ∧ (∃ fin s3out, rag_graph_invoke envA s3Seeded ⟨"q", "", "", [], false⟩ = .ok (fin, s3out)
        ∧ fin.question = "q" ∧ fin.pdf_files = [] ∧ fin.use_s3 = false) := by
  constructor
  · exact ⟨_, _, rfl, (c10_frame envA s3Seeded ⟨"q", "", "", [], false⟩).1 _ _ rfl⟩
  · exact ⟨_, _, rfl, (c10_frame envA s3Seeded ⟨"q", "", "", [], false⟩).2.2 _ _ rfl⟩

end Folio
